import Mathlib

/-!
# HD address generator: derivation walk and address encoders

A shallow embedding of `main.go`. The program is a thin layer over the btcd
libraries (`hdkeychain`, `btcutil`, `txscript`, `schnorr`). The library calls
whose code is not part of the program are parameters of the embedding (the
structure `Btcd`), so the theorems hold for whatever those calls compute; three
library pieces are modelled instead, each marked as such: `Hash160`,
`ComputeTaprootKeyNoScript` and the script builder. The instance
`secp256k1Lib` of the interface computes the taproot encoder on the real curve.

* `uint32` values are natural numbers, and `uint32` addition is `u32 (a + b)`.
* A Go result pair `(value, error)` is an `Except`.
* Byte slices are lists of natural numbers below 256.
* What the program prints is the list of the strings it hands to `fmt`.
-/

namespace HDGen

/-! ## Machine integers and constants -/

/-- Reduction of a natural number to the range of Go's `uint32`. -/
def u32 (n : Nat) : Nat := n % 2 ^ 32

/-- The constant `hdkeychain.HardenedKeyStart` (`0x80000000`, that is 2^31). -/
def HardenedKeyStart : Nat := 0x80000000

/-- The constant `BIP44Purpose`: the purpose field for P2PKH addresses. -/
def BIP44Purpose : Nat := 44

/-- The constant `BIP49Purpose`: the purpose field for P2SH-P2WPKH addresses. -/
def BIP49Purpose : Nat := 49

/-- The constant `BIP84Purpose`: the purpose field for P2WPKH addresses. -/
def BIP84Purpose : Nat := 84

/-- The constant `BIP86Purpose`: the purpose field for P2TR addresses. -/
def BIP86Purpose : Nat := 86

/-- The constant `CoinTypeBitcoin`. -/
def CoinTypeBitcoin : Nat := 0

/-- The constant `DefaultAccount`. -/
def DefaultAccount : Nat := 0

/-- The constant `ExternalChain`. -/
def ExternalChain : Nat := 0

/-- The constant `InternalChain`. -/
def InternalChain : Nat := 1

/-- The constant `AddressBatchSize`. -/
def AddressBatchSize : Nat := 20

/-! ## Go errors -/

/-- Go `error` values as the program handles them: an error handed back by a
library call and passed on untouched (`lib`), or the value built by
`fmt.Errorf(text + "%w", err)` (`wrap`), which keeps the formatted text that
precedes the wrapped error together with the wrapped error itself. -/
inductive GoError (E : Type) where
  | lib (err : E)
  | wrap (msg : String) (err : E)
  deriving DecidableEq, Repr

/-- The method `Error()`: the text of an error, given the text of library errors. -/
def GoError.Error {E : Type} (errorString : E → String) : GoError E → String
  | .lib err => errorString err
  | .wrap msg err => msg ++ errorString err

/-- The method `Unwrap()` as used by `errors.Is`: the library error underneath. -/
def GoError.Unwrap {E : Type} : GoError E → E
  | .lib err => err
  | .wrap _ err => err

/-! ## The derivation walk -/

/-- The function `deriveChildKey` of `main.go`. `Derive` is the method
`(*hdkeychain.ExtendedKey).Derive`, applied to a parent key and a `uint32`
child number. -/
def deriveChildKey {K E : Type} (Derive : K → Nat → Except E K) (masterKey : K)
    (purpose coinType account chain index : Nat) : Except (GoError E) K :=
  match Derive masterKey (u32 (purpose + HardenedKeyStart)) with
  | .error err => .error (.wrap "failed to derive purpose key: " err)
  | .ok purposeKey =>
    match Derive purposeKey (u32 (coinType + HardenedKeyStart)) with
    | .error err => .error (.wrap "failed to derive coin type key: " err)
    | .ok coinTypeKey =>
      match Derive coinTypeKey (u32 (account + HardenedKeyStart)) with
      | .error err => .error (.wrap "failed to derive account key: " err)
      | .ok accountKey =>
        match Derive accountKey chain with
        | .error err => .error (.wrap "failed to derive chain key: " err)
        | .ok chainKey =>
          match Derive chainKey index with
          | .error err =>
            .error (.wrap ("failed to derive index key " ++ toString index ++ ": ") err)
          | .ok indexKey => .ok indexKey

/-! ## Observing the child numbers a walk requests

`deriveChildKey` is generic in the key and error types, so it can be run on
keys that carry a log of the child numbers requested so far. -/

/-- A derivation step that also records the child number it was asked for, on
success as well as on failure. -/
def traced {K E : Type} (Derive : K → Nat → Except E K) :
    K × List Nat → Nat → Except (E × List Nat) (K × List Nat)
  | (k, log), n =>
    match Derive k n with
    | .ok k' => .ok (k', log ++ [n])
    | .error err => .error (err, log ++ [n])

/-- The child numbers requested during a traced walk, in the order of the requests. -/
def requested {K E : Type} : Except (GoError (E × List Nat)) (K × List Nat) → List Nat
  | .ok (_, log) => log
  | .error e => e.Unwrap.2

/-- The child numbers `deriveChildKey` hands to `Derive`, one per step reached. -/
def requests {K E : Type} (Derive : K → Nat → Except E K) (masterKey : K)
    (purpose coinType account chain index : Nat) : List Nat :=
  requested (deriveChildKey (traced Derive) (masterKey, []) purpose coinType account chain index)

/-- A derivation step that always succeeds (keys carry no data). -/
def okDerive : Unit → Nat → Except Unit Unit := fun _ _ => .ok ()

/-- A derivation step that always fails, with an error that carries no data. -/
def failDerive : Unit → Nat → Except Unit Unit := fun _ _ => .error ()

/-- A toy key tree in which a key is only its private flag: a hardened child
(number at least 2^31) of a public-only key is rejected, every other step
succeeds and keeps the flag. -/
def flagDerive : Bool → Nat → Except Unit Bool := fun isPrivate n =>
  if isPrivate = false ∧ 2 ^ 31 ≤ n then .error () else .ok isPrivate

/-! ## Specification-side description of the walk -/

/-- The five segments of a derivation path. -/
inductive Segment where
  | purpose
  | coinType
  | account
  | chain
  | index
  deriving DecidableEq, Repr

/-- Position of a segment in the walk, counted from 1. -/
def Segment.position : Segment → Nat
  | .purpose => 1
  | .coinType => 2
  | .account => 3
  | .chain => 4
  | .index => 5

/-- Specification-side reference: the steps of a walk, each segment with the
child number requested for it. -/
def pathSteps (purpose coinType account chain index : Nat) : List (Segment × Nat) :=
  [(.purpose, u32 (purpose + HardenedKeyStart)), (.coinType, u32 (coinType + HardenedKeyStart)),
   (.account, u32 (account + HardenedKeyStart)), (.chain, chain), (.index, index)]

/-- Specification-side reference: derive one level at a time, each step from
the key of the previous one; the outcome is the last key, or the first step
that fails (its segment, the child number attempted, the step's error). -/
def specWalk {K E : Type} (Derive : K → Nat → Except E K) :
    K → List (Segment × Nat) → Except (Segment × Nat × E) K
  | k, [] => .ok k
  | k, (s, n) :: rest =>
    match Derive k n with
    | .ok k' => specWalk Derive k' rest
    | .error err => .error (s, n, err)

/-- Specification-side reference: the text that precedes the wrapped error in
the error of a failed walk, by failing segment and attempted child number. Only
the index segment states the child number. -/
def failureText : Segment → Nat → String
  | .purpose, _ => "failed to derive purpose key: "
  | .coinType, _ => "failed to derive coin type key: "
  | .account, _ => "failed to derive account key: "
  | .chain, _ => "failed to derive chain key: "
  | .index, n => "failed to derive index key " ++ toString n ++ ": "

/-- Whether the text `s` begins with the text `p`. -/
def startsWith (p s : String) : Bool := p.toList.isPrefixOf s.toList

/-- Specification-side reference: the segment an error text names. -/
def failedSegment (text : String) : Option Segment :=
  if startsWith "failed to derive purpose key" text then some .purpose
  else if startsWith "failed to derive coin type key" text then some .coinType
  else if startsWith "failed to derive account key" text then some .account
  else if startsWith "failed to derive chain key" text then some .chain
  else if startsWith "failed to derive index key" text then some .index
  else none

/-! ## The library interface of the encoders -/

/-- The btcd calls made by the address encoders and by the batch printer. Keys,
public keys, addresses, network parameters and library errors are abstract. -/
structure Btcd (K PubKey Addr Net E : Type) where
  /-- The method `(*hdkeychain.ExtendedKey).Derive`. -/
  Derive : K → Nat → Except E K
  /-- The method `(*hdkeychain.ExtendedKey).ECPubKey`. -/
  ECPubKey : K → Except E PubKey
  /-- The method `(*btcec.PublicKey).SerializeCompressed`. -/
  SerializeCompressed : PubKey → List Nat
  /-- The hash SHA-256. -/
  sha256 : List Nat → List Nat
  /-- The hash RIPEMD-160. -/
  ripemd160 : List Nat → List Nat
  /-- The constructor `btcutil.NewAddressPubKeyHash`. -/
  NewAddressPubKeyHash : List Nat → Net → Except E Addr
  /-- The constructor `btcutil.NewAddressScriptHash`, applied to a serialized script. -/
  NewAddressScriptHash : List Nat → Net → Except E Addr
  /-- The constructor `btcutil.NewAddressWitnessPubKeyHash` (witness version 0). -/
  NewAddressWitnessPubKeyHash : List Nat → Net → Except E Addr
  /-- The constructor `btcutil.NewAddressTaproot` (witness version 1). -/
  NewAddressTaproot : List Nat → Net → Except E Addr
  /-- The function `schnorr.SerializePubKey`: the 32-byte x-only serialization. -/
  SerializePubKey : PubKey → List Nat
  /-- The function `schnorr.ParsePubKey`: the public key that 32 x-only bytes
  stand for, which is the curve point with that x coordinate and even y. -/
  ParsePubKey : List Nat → PubKey
  /-- The tagged hash of BIP-340, `TaggedHash(tag, msg)`. -/
  TaggedHash : String → List Nat → List Nat
  /-- The curve point `t*G` for the scalar read from the bytes `t`. -/
  scalarBaseMult : List Nat → PubKey
  /-- Addition of curve points. -/
  pointAdd : PubKey → PubKey → PubKey
  /-- The error `txscript.ErrScriptNotCanonical` with its description. -/
  ErrScriptNotCanonical : String → E
  /-- The method `EncodeAddress` of an address. -/
  EncodeAddress : Addr → String
  /-- The method `Error` of a library error. -/
  errorString : E → String

/-- Modelled from the spec: `btcutil.Hash160` is library code that is not part
of `main.go`; the spec describes it as "SHA-256 then RIPEMD-160". -/
def Hash160 {K PubKey Addr Net E : Type} (L : Btcd K PubKey Addr Net E) (buf : List Nat) :
    List Nat :=
  L.ripemd160 (L.sha256 buf)

/-- Modelled from the spec: `txscript.ComputeTaprootKeyNoScript` is library code
that is not part of `main.go`. The spec describes it as "compute
t = TaggedHash("TapTweak", P_x) where P is the untweaked internal public key;
output key Q = P + t·G, reduced to its 32-byte x-only coordinate (choosing the
even-y representative)". As the library does, the key handed in is first
re-parsed from its x-only serialization, which gives the point with even y;
the tweak is computed from that internal key, with no script root, and added
to it. -/
def ComputeTaprootKeyNoScript {K PubKey Addr Net E : Type} (L : Btcd K PubKey Addr Net E)
    (pubKey : PubKey) : PubKey :=
  let internalKey := L.ParsePubKey (L.SerializePubKey pubKey)
  let tapTweakHash := L.TaggedHash "TapTweak" (L.SerializePubKey internalKey)
  L.pointAdd internalKey (L.scalarBaseMult tapTweakHash)

/-! ## The script builder

Modelled on `txscript.ScriptBuilder`, library code that is not part of
`main.go`: a script under construction and the first error met, if any. -/

/-- The constant `txscript.MaxScriptSize`. -/
def MaxScriptSize : Nat := 10000

/-- The constant `txscript.MaxScriptElementSize`. -/
def MaxScriptElementSize : Nat := 520

/-- The opcode `OP_0`. -/
def OP_0 : Nat := 0x00

/-- The opcode `OP_DATA_1`. -/
def OP_DATA_1 : Nat := 0x01

/-- The opcode `OP_PUSHDATA1`. -/
def OP_PUSHDATA1 : Nat := 0x4c

/-- The opcode `OP_PUSHDATA2`. -/
def OP_PUSHDATA2 : Nat := 0x4d

/-- The opcode `OP_PUSHDATA4`. -/
def OP_PUSHDATA4 : Nat := 0x4e

/-- The opcode `OP_1NEGATE`. -/
def OP_1NEGATE : Nat := 0x4f

/-- The opcode `OP_1`. -/
def OP_1 : Nat := 0x51

/-- Modelled from the spec: the type `txscript.ScriptBuilder` is library code
that is not part of `main.go`. It holds the script built so far and the first
error, after which every further addition is ignored. -/
structure ScriptBuilder (E : Type) where
  script : List Nat
  err : Option E

/-- Modelled from the spec: `txscript.NewScriptBuilder`, an empty script and no error. -/
def NewScriptBuilder {E : Type} : ScriptBuilder E := ⟨[], none⟩

/-- Modelled from the spec: `AddOp` appends one opcode byte ("OP_0"), unless
the builder already failed or the script would exceed `MaxScriptSize`. -/
def ScriptBuilder.AddOp {E : Type} (notCanonical : String → E) (b : ScriptBuilder E)
    (opcode : Nat) : ScriptBuilder E :=
  if b.err.isSome then b
  else if b.script.length + 1 > MaxScriptSize then
    { b with err := some (notCanonical
        ("adding an opcode would exceed the maximum allowed canonical script length of " ++
          toString MaxScriptSize)) }
  else { b with script := b.script ++ [opcode % 256] }

/-- Modelled from the spec: the number of bytes the canonical push of `data` takes. -/
def canonicalDataSize (data : List Nat) : Nat :=
  let dataLen := data.length
  if dataLen = 0 then 1
  else if dataLen = 1 ∧ data.headD 0 ≤ 16 then 1
  else if dataLen = 1 ∧ data.headD 0 = 0x81 then 1
  else if dataLen < OP_PUSHDATA1 then 1 + dataLen
  else if dataLen ≤ 0xff then 2 + dataLen
  else if dataLen ≤ 0xffff then 3 + dataLen
  else 5 + dataLen

/-- Modelled from the spec: the canonical push of `data` ("a 20-byte push" is
the length byte followed by the data): a small-integer opcode for a single
small number, else the shortest of `OP_DATA_n`, `OP_PUSHDATA1`, `OP_PUSHDATA2`
and `OP_PUSHDATA4` (lengths in little-endian order) followed by the data. -/
def ScriptBuilder.addData {E : Type} (b : ScriptBuilder E) (data : List Nat) : ScriptBuilder E :=
  let dataLen := data.length
  if dataLen = 0 ∨ (dataLen = 1 ∧ data.headD 0 = 0) then
    { b with script := b.script ++ [OP_0] }
  else if dataLen = 1 ∧ data.headD 0 ≤ 16 then
    { b with script := b.script ++ [((OP_1 - 1) + data.headD 0) % 256] }
  else if dataLen = 1 ∧ data.headD 0 = 0x81 then
    { b with script := b.script ++ [OP_1NEGATE] }
  else if dataLen < OP_PUSHDATA1 then
    { b with script := b.script ++ [((OP_DATA_1 - 1) + dataLen) % 256] ++ data }
  else if dataLen ≤ 0xff then
    { b with script := b.script ++ [OP_PUSHDATA1, dataLen % 256] ++ data }
  else if dataLen ≤ 0xffff then
    { b with script := b.script ++ [OP_PUSHDATA2] ++ [dataLen % 256, dataLen / 256 % 256] ++ data }
  else
    { b with script := b.script ++ [OP_PUSHDATA4] ++
        [dataLen % 256, dataLen / 256 % 256, dataLen / 65536 % 256, dataLen / 16777216 % 256] ++
        data }

/-- Modelled from the spec: `AddData` appends the canonical push of `data`,
unless the builder already failed, the script would exceed `MaxScriptSize`, or
the data is longer than `MaxScriptElementSize`. -/
def ScriptBuilder.AddData {E : Type} (notCanonical : String → E) (b : ScriptBuilder E)
    (data : List Nat) : ScriptBuilder E :=
  if b.err.isSome then b
  else if b.script.length + canonicalDataSize data > MaxScriptSize then
    { b with err := some (notCanonical
        ("adding " ++ toString (canonicalDataSize data) ++
          " bytes of data would exceed the maximum allowed canonical script length of " ++
          toString MaxScriptSize)) }
  else if data.length > MaxScriptElementSize then
    { b with err := some (notCanonical
        ("adding a data element of " ++ toString data.length ++
          " bytes would exceed the maximum allowed script element size of " ++
          toString MaxScriptElementSize)) }
  else b.addData data

/-- Modelled from the spec: `Script` returns the script built and the error met, if any. -/
def ScriptBuilder.Script {E : Type} (b : ScriptBuilder E) : List Nat × Option E :=
  (b.script, b.err)

/-! ## The four address encoders -/

section Encoders

variable {K PubKey Addr Net E : Type}

/-- The function `generateLegacyAddress` of `main.go` (P2PKH). -/
def generateLegacyAddress (L : Btcd K PubKey Addr Net E) (key : K) (netParams : Net) :
    Except (GoError E) Addr :=
  match L.ECPubKey key with
  | .error err => .error (.wrap "failed to get public key: " err)
  | .ok pubKey =>
    match L.NewAddressPubKeyHash (Hash160 L (L.SerializeCompressed pubKey)) netParams with
    | .error err => .error (.lib err)
    | .ok addr => .ok addr

/-- The function `generateNestedSegWitAddress` of `main.go` (P2SH-P2WPKH). -/
def generateNestedSegWitAddress (L : Btcd K PubKey Addr Net E) (key : K) (netParams : Net) :
    Except (GoError E) Addr :=
  match L.ECPubKey key with
  | .error err => .error (.wrap "failed to get public key: " err)
  | .ok pubKey =>
    let pubKeyBytes := L.SerializeCompressed pubKey
    let pubKeyHash := Hash160 L pubKeyBytes
    let builder : ScriptBuilder E := NewScriptBuilder
    let builder := builder.AddOp L.ErrScriptNotCanonical OP_0
    let builder := builder.AddData L.ErrScriptNotCanonical pubKeyHash
    match builder.Script with
    | (_, some err) => .error (.wrap "failed to build witness script: " err)
    | (witnessScript, none) =>
      match L.NewAddressScriptHash witnessScript netParams with
      | .error err => .error (.lib err)
      | .ok addr => .ok addr

/-- The function `generateNativeSegWitAddress` of `main.go` (P2WPKH). -/
def generateNativeSegWitAddress (L : Btcd K PubKey Addr Net E) (key : K) (netParams : Net) :
    Except (GoError E) Addr :=
  match L.ECPubKey key with
  | .error err => .error (.wrap "failed to get public key: " err)
  | .ok pubKey =>
    let pubKeyBytes := L.SerializeCompressed pubKey
    let pubKeyHash := Hash160 L pubKeyBytes
    match L.NewAddressWitnessPubKeyHash pubKeyHash netParams with
    | .error err => .error (.lib err)
    | .ok addr => .ok addr

/-- The function `generateTaprootAddress` of `main.go` (P2TR). -/
def generateTaprootAddress (L : Btcd K PubKey Addr Net E) (key : K) (netParams : Net) :
    Except (GoError E) Addr :=
  match L.ECPubKey key with
  | .error err => .error (.wrap "failed to get public key: " err)
  | .ok pubKey =>
    let taprootPubKey := ComputeTaprootKeyNoScript L pubKey
    match L.NewAddressTaproot (L.SerializePubKey taprootPubKey) netParams with
    | .error err => .error (.lib err)
    | .ok addr => .ok addr

/-- The value a library constructor returns, seen as the encoder's own result. -/
def libResult (r : Except E Addr) : Except (GoError E) Addr :=
  match r with
  | .error err => .error (.lib err)
  | .ok addr => .ok addr

end Encoders

/-! ## The batch printer -/

/-- The loop header `for i := currentBatchStart; i < currentBatchStart+AddressBatchSize; i++`
of `generateAddressBatch`, entered with the counter at `i`: the bound and the
increment are `uint32` arithmetic, and the output is what the body prints for
each value of the counter, in order. -/
def batchLoop (body : Nat → List String) (currentBatchStart : Nat) (i : Nat) : List String :=
  if i < u32 (currentBatchStart + AddressBatchSize) then
    body i ++ batchLoop body currentBatchStart (u32 (i + 1))
  else []
termination_by u32 (currentBatchStart + AddressBatchSize) - i
decreasing_by
  simp only [u32] at *
  omega

section Batch

variable {K PubKey Addr Net E : Type}

/-- The function `generateAddressBatch` of `main.go`; the result lists the
strings printed, one per call of `fmt.Printf` or `fmt.Println`. -/
def generateAddressBatch (L : Btcd K PubKey Addr Net E) (masterKey : K) (netParams : Net)
    (currentBatchStart chain : Nat) (chainName : String) : List String :=
  ["\n--- " ++ chainName ++ " (chain=" ++ toString chain ++ ") ---\n"] ++
  ["\nLegacy (BIP44 - P2PKH):\n"] ++
  batchLoop (fun i =>
    match deriveChildKey L.Derive masterKey BIP44Purpose CoinTypeBitcoin DefaultAccount chain i with
    | .error err =>
      ["  Erro ao derivar chave legacy para índice " ++ toString i ++ ": " ++
        err.Error L.errorString ++ "\n"]
    | .ok legacyKey =>
      match generateLegacyAddress L legacyKey netParams with
      | .error err =>
        ["  Erro ao gerar endereço legacy para índice " ++ toString i ++ ": " ++
          err.Error L.errorString ++ "\n"]
      | .ok legacyAddr => ["  " ++ toString i ++ ": " ++ L.EncodeAddress legacyAddr ++ "\n"])
    currentBatchStart currentBatchStart ++
  ["\nNested SegWit (BIP49 - P2SH-P2WPKH):\n"] ++
  batchLoop (fun i =>
    match deriveChildKey L.Derive masterKey BIP49Purpose CoinTypeBitcoin DefaultAccount chain i with
    | .error err =>
      ["  Erro ao derivar chave nested segwit para índice " ++ toString i ++ ": " ++
        err.Error L.errorString ++ "\n"]
    | .ok nestedKey =>
      match generateNestedSegWitAddress L nestedKey netParams with
      | .error err =>
        ["  Erro ao gerar endereço nested segwit para índice " ++ toString i ++ ": " ++
          err.Error L.errorString ++ "\n"]
      | .ok nestedAddr => ["  " ++ toString i ++ ": " ++ L.EncodeAddress nestedAddr ++ "\n"])
    currentBatchStart currentBatchStart ++
  ["\nNative SegWit (BIP84 - P2WPKH):\n"] ++
  batchLoop (fun i =>
    match deriveChildKey L.Derive masterKey BIP84Purpose CoinTypeBitcoin DefaultAccount chain i with
    | .error err =>
      ["  Erro ao derivar chave native segwit para índice " ++ toString i ++ ": " ++
        err.Error L.errorString ++ "\n"]
    | .ok nativeKey =>
      match generateNativeSegWitAddress L nativeKey netParams with
      | .error err =>
        ["  Erro ao gerar endereço native segwit para índice " ++ toString i ++ ": " ++
          err.Error L.errorString ++ "\n"]
      | .ok nativeAddr => ["  " ++ toString i ++ ": " ++ L.EncodeAddress nativeAddr ++ "\n"])
    currentBatchStart currentBatchStart ++
  ["\nTaproot (BIP86 - P2TR):\n"] ++
  batchLoop (fun i =>
    match deriveChildKey L.Derive masterKey BIP86Purpose CoinTypeBitcoin DefaultAccount chain i with
    | .error err =>
      ["  Erro ao derivar chave taproot para índice " ++ toString i ++ ": " ++
        err.Error L.errorString ++ "\n"]
    | .ok taprootKey =>
      match generateTaprootAddress L taprootKey netParams with
      | .error err =>
        ["  Erro ao gerar endereço taproot para índice " ++ toString i ++ ": " ++
          err.Error L.errorString ++ "\n"]
      | .ok taprootAddr => ["  " ++ toString i ++ ": " ++ L.EncodeAddress taprootAddr ++ "\n"])
    currentBatchStart currentBatchStart

/-- Specification-side reference: the line of index `i` in one section. It is
the address the section's encoder produces from the key
`deriveChildKey(master, purpose, 0, 0, chain, i)`, or an error line when the
derivation or the encoding fails. -/
def sectionLine (L : Btcd K PubKey Addr Net E) (family : String) (purpose : Nat)
    (encoder : K → Net → Except (GoError E) Addr) (masterKey : K) (netParams : Net)
    (chain i : Nat) : String :=
  match deriveChildKey L.Derive masterKey purpose 0 0 chain i with
  | .error err =>
    "  Erro ao derivar chave " ++ family ++ " para índice " ++ toString i ++ ": " ++
      err.Error L.errorString ++ "\n"
  | .ok key =>
    match encoder key netParams with
    | .error err =>
      "  Erro ao gerar endereço " ++ family ++ " para índice " ++ toString i ++ ": " ++
        err.Error L.errorString ++ "\n"
    | .ok addr => "  " ++ toString i ++ ": " ++ L.EncodeAddress addr ++ "\n"

/-- Specification-side reference: one section of a batch, its title followed by
one line for each of the twenty indices from `start` on, in ascending order. -/
def batchSection (L : Btcd K PubKey Addr Net E) (title family : String) (purpose : Nat)
    (encoder : K → Net → Except (GoError E) Addr) (masterKey : K) (netParams : Net)
    (start chain : Nat) : List String :=
  title :: (List.range' start 20).map
    (sectionLine L family purpose encoder masterKey netParams chain)

end Batch

/-! ## A small instance of the library interface, for concrete evaluation -/

/-- A toy instance of the library interface: a key is a number together with
its depth, its public key is the number alone, every hash is twenty zero bytes,
addresses are the bytes handed to the constructor, and the derivation step adds
the child number to the key and one to the depth. -/
def toyLib : Btcd (Nat × Nat) Nat (List Nat) Unit Unit where
  Derive := fun k n => .ok (k.1 + n, k.2 + 1)
  ECPubKey := fun k => .ok k.1
  SerializeCompressed := fun pk => 2 :: List.replicate 32 (pk % 256)
  sha256 := fun _ => List.replicate 32 0
  ripemd160 := fun _ => List.replicate 20 0
  NewAddressPubKeyHash := fun h _ => .ok h
  NewAddressScriptHash := fun h _ => .ok h
  NewAddressWitnessPubKeyHash := fun h _ => .ok h
  NewAddressTaproot := fun h _ => .ok h
  SerializePubKey := fun pk => List.replicate 32 (pk % 256)
  ParsePubKey := fun bytes => bytes.headD 0
  TaggedHash := fun _ msg => msg
  scalarBaseMult := fun t => t.length
  pointAdd := fun p q => p + q
  ErrScriptNotCanonical := fun _ => ()
  EncodeAddress := fun a => toString a.length
  errorString := fun _ => "error"

/-! ## The secp256k1 instance of the library interface

The curve arithmetic, SHA-256 and the tagged hash as the libraries compute
them, so that the taproot encoder can be evaluated on a real key. -/

/-- The big-endian bytes of a number, `len` of them. -/
def toBytesBE : Nat → Nat → List Nat
  | 0, _ => []
  | len + 1, n => toBytesBE len (n / 256) ++ [n % 256]

/-- The number that a list of bytes spells in big-endian order. -/
def ofBytesBE (bytes : List Nat) : Nat := bytes.foldl (fun acc b => acc * 256 + b % 256) 0

/-- The prime of the field of secp256k1. -/
def fieldPrime : Nat := 0xFFFFFFFFFFFFFFFFFFFFFFFFFFFFFFFFFFFFFFFFFFFFFFFFFFFFFFFEFFFFFC2F

/-- The order of the group of secp256k1. -/
def groupOrder : Nat := 0xFFFFFFFFFFFFFFFFFFFFFFFFFFFFFFFEBAAEDCE6AF48A03BBFD25E8CD0364141

/-- The base point G of secp256k1. -/
def basePoint : Nat × Nat :=
  (0x79BE667EF9DCBBAC55A06295CE870B07029BFCDB2DCE28D959F2815B16F81798,
   0x483ADA7726A3C4655DA4FBFC0E1108A8FD17B448A68554199C47D08FFB10D4B8)

/-- Square-and-multiply, one bit of the exponent per unit of fuel. -/
def powModAux : Nat → Nat → Nat → Nat → Nat → Nat
  | 0, _, _, _, acc => acc
  | fuel + 1, b, e, m, acc =>
    if e = 0 then acc
    else powModAux fuel (b * b % m) (e / 2) m (if e % 2 = 1 then acc * b % m else acc)

/-- The power `b ^ e` modulo `m`, for an exponent below 2^256. -/
def powMod (b e m : Nat) : Nat := powModAux 256 (b % m) e m 1

/-- The inverse in the field of secp256k1. -/
def fieldInv (a : Nat) : Nat := powMod a (fieldPrime - 2) fieldPrime

/-- Addition of points of secp256k1 in affine coordinates; the pair (0, 0)
stands for the point at infinity. -/
def curveAdd (A B : Nat × Nat) : Nat × Nat :=
  if A = (0, 0) then B
  else if B = (0, 0) then A
  else if A.1 = B.1 ∧ (A.2 + B.2) % fieldPrime = 0 then (0, 0)
  else
    let l :=
      if A = B then 3 * A.1 * A.1 % fieldPrime * fieldInv (2 * A.2) % fieldPrime
      else (B.2 + fieldPrime - A.2) % fieldPrime * fieldInv (B.1 + fieldPrime - A.1) % fieldPrime
    let x := (l * l + 2 * fieldPrime - A.1 - B.1) % fieldPrime
    (x, (l * ((A.1 + fieldPrime - x) % fieldPrime) + fieldPrime - A.2) % fieldPrime)

/-- Double-and-add, one bit of the scalar per unit of fuel. -/
def curveMulAux : Nat → Nat → Nat × Nat → Nat × Nat → Nat × Nat
  | 0, _, _, acc => acc
  | fuel + 1, k, A, acc =>
    if k = 0 then acc
    else curveMulAux fuel (k / 2) (curveAdd A A) (if k % 2 = 1 then curveAdd acc A else acc)

/-- The multiple `k * A` of a point, for a scalar below 2^256. -/
def curveMul (k : Nat) (A : Nat × Nat) : Nat × Nat := curveMulAux 256 k A (0, 0)

/-- The point with x coordinate `x` and even y (BIP-340 `lift_x`), for an `x`
that is the coordinate of a curve point. -/
def liftX (x : Nat) : Nat × Nat :=
  let y := powMod ((x * x % fieldPrime * x + 7) % fieldPrime) ((fieldPrime + 1) / 4) fieldPrime
  (x, if y % 2 = 0 then y else fieldPrime - y)

/-- Rotation of a 32-bit word to the right. -/
def rotr32 (x n : Nat) : Nat := (x >>> n ||| x <<< (32 - n)) % 2 ^ 32

/-- The round constants of SHA-256. -/
def sha256K : List Nat :=
  [0x428a2f98, 0x71374491, 0xb5c0fbcf, 0xe9b5dba5,
   0x3956c25b, 0x59f111f1, 0x923f82a4, 0xab1c5ed5,
   0xd807aa98, 0x12835b01, 0x243185be, 0x550c7dc3,
   0x72be5d74, 0x80deb1fe, 0x9bdc06a7, 0xc19bf174,
   0xe49b69c1, 0xefbe4786, 0x0fc19dc6, 0x240ca1cc,
   0x2de92c6f, 0x4a7484aa, 0x5cb0a9dc, 0x76f988da,
   0x983e5152, 0xa831c66d, 0xb00327c8, 0xbf597fc7,
   0xc6e00bf3, 0xd5a79147, 0x06ca6351, 0x14292967,
   0x27b70a85, 0x2e1b2138, 0x4d2c6dfc, 0x53380d13,
   0x650a7354, 0x766a0abb, 0x81c2c92e, 0x92722c85,
   0xa2bfe8a1, 0xa81a664b, 0xc24b8b70, 0xc76c51a3,
   0xd192e819, 0xd6990624, 0xf40e3585, 0x106aa070,
   0x19a4c116, 0x1e376c08, 0x2748774c, 0x34b0bcb5,
   0x391c0cb3, 0x4ed8aa4a, 0x5b9cca4f, 0x682e6ff3,
   0x748f82ee, 0x78a5636f, 0x84c87814, 0x8cc70208,
   0x90befffa, 0xa4506ceb, 0xbef9a3f7, 0xc67178f2]

/-- The initial hash value of SHA-256. -/
def sha256Init : List Nat :=
  [0x6a09e667, 0xbb67ae85, 0x3c6ef372, 0xa54ff53a,
   0x510e527f, 0x9b05688c, 0x1f83d9ab, 0x5be0cd19]

/-- The padded message of SHA-256: the message, a 1 bit, zeros, and the bit
length in 8 bytes, a multiple of 64 bytes in all. -/
def sha256Pad (msg : List Nat) : List Nat :=
  msg ++ [0x80] ++ List.replicate ((55 + 64 - msg.length % 64) % 64) 0 ++
    toBytesBE 8 (8 * msg.length)

/-- The first `n` big-endian 32-bit words of a byte list. -/
def wordsBE : Nat → List Nat → List Nat
  | 0, _ => []
  | n + 1, bytes => ofBytesBE (bytes.take 4) :: wordsBE n (bytes.drop 4)

/-- The message schedule of SHA-256, extended by `n` words. -/
def sha256Schedule : Nat → List Nat → List Nat
  | 0, w => w
  | n + 1, w =>
    let t := w.length
    let w15 := w.getD (t - 15) 0
    let w2 := w.getD (t - 2) 0
    let s0 := rotr32 w15 7 ^^^ rotr32 w15 18 ^^^ (w15 >>> 3)
    let s1 := rotr32 w2 17 ^^^ rotr32 w2 19 ^^^ (w2 >>> 10)
    sha256Schedule n (w ++ [(w.getD (t - 16) 0 + s0 + w.getD (t - 7) 0 + s1) % 2 ^ 32])

/-- One round of the compression function of SHA-256 on the working variables
a to h, with a round constant and a schedule word. -/
def sha256Round (v : List Nat) (kw : Nat × Nat) : List Nat :=
  match v with
  | [a, b, c, d, e, f, g, h] =>
    let s1 := rotr32 e 6 ^^^ rotr32 e 11 ^^^ rotr32 e 25
    let ch := (e &&& f) ^^^ ((e ^^^ 0xffffffff) &&& g)
    let t1 := (h + s1 + ch + kw.1 + kw.2) % 2 ^ 32
    let s0 := rotr32 a 2 ^^^ rotr32 a 13 ^^^ rotr32 a 22
    let maj := (a &&& b) ^^^ (a &&& c) ^^^ (b &&& c)
    let t2 := (s0 + maj) % 2 ^ 32
    [(t1 + t2) % 2 ^ 32, a, b, c, (d + t1) % 2 ^ 32, e, f, g]
  | _ => v

/-- The compression of one 64-byte block into the hash value. -/
def sha256Block (hash block : List Nat) : List Nat :=
  let w := sha256Schedule 48 (wordsBE 16 block)
  let v := (sha256K.zip w).foldl sha256Round hash
  List.zipWith (fun x y => (x + y) % 2 ^ 32) hash v

/-- The compression of `n` blocks of a padded message, one after the other. -/
def sha256Blocks : Nat → List Nat → List Nat → List Nat
  | 0, hash, _ => hash
  | n + 1, hash, bytes => sha256Blocks n (sha256Block hash (bytes.take 64)) (bytes.drop 64)

/-- The hash SHA-256 of a byte list. -/
def sha256 (msg : List Nat) : List Nat :=
  (sha256Blocks ((sha256Pad msg).length / 64) sha256Init (sha256Pad msg)).flatMap (toBytesBE 4)

/-- The tagged hash of BIP-340, SHA-256 of the hashed tag twice and the message
(`chainhash.TaggedHash`), for a tag of ASCII characters. -/
def taggedHash (tag : String) (msg : List Nat) : List Nat :=
  sha256 (sha256 (tag.toList.map Char.toNat) ++ sha256 (tag.toList.map Char.toNat) ++ msg)

/-- The library interface on secp256k1: a key is its private scalar, a public
key a curve point, an address the bytes handed to its constructor. The taproot
encoder is computed as the libraries compute it; child derivation and
RIPEMD-160, which that encoder does not use, are not computed (the one always
fails, the other gives twenty zero bytes). -/
def secp256k1Lib : Btcd Nat (Nat × Nat) (List Nat) Unit Unit where
  Derive := fun _ _ => .error ()
  ECPubKey := fun d => .ok (curveMul d basePoint)
  SerializeCompressed := fun P => (2 + P.2 % 2) :: toBytesBE 32 P.1
  sha256 := sha256
  ripemd160 := fun _ => List.replicate 20 0
  NewAddressPubKeyHash := fun h _ => .ok h
  NewAddressScriptHash := fun h _ => .ok h
  NewAddressWitnessPubKeyHash := fun h _ => .ok h
  NewAddressTaproot := fun h _ => .ok h
  SerializePubKey := fun P => toBytesBE 32 P.1
  ParsePubKey := fun bytes => liftX (ofBytesBE bytes)
  TaggedHash := taggedHash
  scalarBaseMult := fun t => curveMul (ofBytesBE t % groupOrder) basePoint
  pointAdd := curveAdd
  ErrScriptNotCanonical := fun _ => ()
  EncodeAddress := fun a => toString a
  errorString := fun _ => "error"

/-- The private scalar of the leaf key m/86'/0'/0'/0/0 of the BIP-86 test
vector (mnemonic "abandon ... about"). -/
def bip86LeafKey : Nat := 0x41f41d69260df4cf277826a9b65a3717e4eeddbeedf637f212ca096576479361

/-- The public key of `bip86LeafKey`; its y coordinate is odd (compressed form
03cc8a4b...c115). -/
def bip86LeafPubKey : Nat × Nat :=
  (0xcc8a4bc64d897bddc5fbc2f670f7a8ba0b386779106cf1223c6fc5d7cd6fc115,
   0x8190abf51fae206f0a1c825717ed512366620dad8c82b09807e7f27986e5c3fb)

/-! ## Lemmas on the walk -/

theorem u32_add_hardened (n : Nat) : u32 (n + HardenedKeyStart) = (n + 2 ^ 31) % 2 ^ 32 := by
  simp [u32, HardenedKeyStart]

theorem requests_eq_take {K E : Type} (Derive : K → Nat → Except E K) (m : K)
    (p c a ch i : Nat) :
    ∃ n, 1 ≤ n ∧ n ≤ 5 ∧
      requests Derive m p c a ch i =
        ([u32 (p + HardenedKeyStart), u32 (c + HardenedKeyStart),
          u32 (a + HardenedKeyStart), ch, i]).take n ∧
      ((∃ k, deriveChildKey Derive m p c a ch i = .ok k) → n = 5) := by
  cases h1 : Derive m (u32 (p + HardenedKeyStart)) with
  | error e1 =>
    exact ⟨1, by omega, by omega,
      by simp [requests, requested, deriveChildKey, traced, h1, GoError.Unwrap],
      by simp [deriveChildKey, h1]⟩
  | ok k1 =>
    cases h2 : Derive k1 (u32 (c + HardenedKeyStart)) with
    | error e2 =>
      exact ⟨2, by omega, by omega,
        by simp [requests, requested, deriveChildKey, traced, h1, h2, GoError.Unwrap],
        by simp [deriveChildKey, h1, h2]⟩
    | ok k2 =>
      cases h3 : Derive k2 (u32 (a + HardenedKeyStart)) with
      | error e3 =>
        exact ⟨3, by omega, by omega,
          by simp [requests, requested, deriveChildKey, traced, h1, h2, h3, GoError.Unwrap],
          by simp [deriveChildKey, h1, h2, h3]⟩
      | ok k3 =>
        cases h4 : Derive k3 ch with
        | error e4 =>
          exact ⟨4, by omega, by omega,
            by simp [requests, requested, deriveChildKey, traced, h1, h2, h3, h4,
              GoError.Unwrap],
            by simp [deriveChildKey, h1, h2, h3, h4]⟩
        | ok k4 =>
          cases h5 : Derive k4 i with
          | error e5 =>
            exact ⟨5, by omega, by omega,
              by simp [requests, requested, deriveChildKey, traced, h1, h2, h3, h4, h5,
                GoError.Unwrap],
              by simp⟩
          | ok k5 =>
            exact ⟨5, by omega, by omega,
              by simp [requests, requested, deriveChildKey, traced, h1, h2, h3, h4, h5],
              by simp⟩

/-! ## Hardened offset (claims C1 and C4) -/

/-- C1, counterexample. The claim fails at purpose = 2^31 (a 32-bit unsigned value):
the `uint32` addition wraps, so the first step is asked for child number 0, not
for 2^31 + 2^31. -/
theorem deriveChildKey_hardened_offset_wraps :
    (2147483648 : Nat) < 2 ^ 32 ∧
      requests okDerive () 2147483648 0 0 0 0 = [0, 2147483648, 2147483648, 0, 0] ∧
      (0 : Nat) ≠ 2147483648 + 2 ^ 31 := by
  decide

/-- C1, amended. For 32-bit unsigned purpose, coinType and account, the child numbers that
`deriveChildKey` hands to the derivation steps it reaches are, in order,
(purpose + 2^31) mod 2^32, (coinType + 2^31) mod 2^32, (account + 2^31) mod 2^32,
chain and index (all five when the walk succeeds); the first three equal
nominal value + 2^31 exactly when the nominal value is below 2^31. -/
theorem deriveChildKey_hardened_offset {K E : Type} (Derive : K → Nat → Except E K) (m : K)
    (p c a ch i : Nat) (hp : p < 2 ^ 32) (hc : c < 2 ^ 32) (ha : a < 2 ^ 32) :
    (∃ n, 1 ≤ n ∧ requests Derive m p c a ch i =
        ([(p + 2 ^ 31) % 2 ^ 32, (c + 2 ^ 31) % 2 ^ 32, (a + 2 ^ 31) % 2 ^ 32, ch, i]).take n) ∧
      ((∃ k, deriveChildKey Derive m p c a ch i = .ok k) →
        requests Derive m p c a ch i =
          [(p + 2 ^ 31) % 2 ^ 32, (c + 2 ^ 31) % 2 ^ 32, (a + 2 ^ 31) % 2 ^ 32, ch, i]) ∧
      ((p + 2 ^ 31) % 2 ^ 32 = p + 2 ^ 31 ↔ p < 2 ^ 31) ∧
      ((c + 2 ^ 31) % 2 ^ 32 = c + 2 ^ 31 ↔ c < 2 ^ 31) ∧
      ((a + 2 ^ 31) % 2 ^ 32 = a + 2 ^ 31 ↔ a < 2 ^ 31) := by
  obtain ⟨n, h1, h5, hreq, hok⟩ := requests_eq_take Derive m p c a ch i
  simp only [u32_add_hardened] at hreq
  refine ⟨⟨n, h1, hreq⟩, ?_, by omega, by omega, by omega⟩
  intro h
  rw [hreq, hok h]
  rfl

/-- C1, witness: the path 44, 0, 0, 0, 7 on a derivation step that always succeeds. -/
theorem deriveChildKey_hardened_offset_witness :
    requests okDerive () 44 0 0 0 7 = [2147483692, 2147483648, 2147483648, 0, 7] :=
  ((deriveChildKey_hardened_offset okDerive () 44 0 0 0 7 (by decide) (by decide)
    (by decide)).2.1 ⟨(), rfl⟩)

/-- C4, counterexample. The claim fails at index = 2^31 (a 32-bit unsigned value):
the fifth step is asked for child number 2^31, which is not below 2^31, so the
index is derived as a hardened child. -/
theorem deriveChildKey_index_hardened :
    (2147483648 : Nat) < 2 ^ 32 ∧
      requests okDerive () 44 0 0 0 2147483648 =
        [2147483692, 2147483648, 2147483648, 0, 2147483648] ∧
      ¬ ((2147483648 : Nat) < 2 ^ 31) := by
  decide

/-- C4, amended. For every chain and index (32-bit unsigned or not), the fourth and fifth
derivation steps of `deriveChildKey` are asked for exactly `chain` and `index`,
with no offset added: the requested child number is below 2^31 (not hardened)
if and only if the given chain, respectively index, is below 2^31. -/
theorem deriveChildKey_chain_index_unmodified {K E : Type} (Derive : K → Nat → Except E K)
    (m : K) (p c a ch i : Nat) :
    (∀ n, (requests Derive m p c a ch i)[3]? = some n → n = ch ∧ (n < 2 ^ 31 ↔ ch < 2 ^ 31)) ∧
      (∀ n, (requests Derive m p c a ch i)[4]? = some n → n = i ∧ (n < 2 ^ 31 ↔ i < 2 ^ 31)) ∧
      ((∃ k, deriveChildKey Derive m p c a ch i = .ok k) →
        (requests Derive m p c a ch i)[3]? = some ch ∧
          (requests Derive m p c a ch i)[4]? = some i) := by
  obtain ⟨n, h1, h5, hreq, hok⟩ := requests_eq_take Derive m p c a ch i
  have hn : n = 1 ∨ n = 2 ∨ n = 3 ∨ n = 4 ∨ n = 5 := by omega
  refine ⟨?_, ?_, ?_⟩
  · intro x hx
    rw [hreq] at hx
    rcases hn with h | h | h | h | h <;> subst h <;> simp_all
  · intro x hx
    rw [hreq] at hx
    rcases hn with h | h | h | h | h <;> subst h <;> simp_all
  · intro h
    rw [hreq, hok h]
    simp

/-- C4, witness: chain 1 and index 7 reach the fourth and fifth steps unchanged. -/
theorem deriveChildKey_chain_index_unmodified_witness :
    (requests okDerive () 44 0 0 1 7)[3]? = some 1 ∧
      (requests okDerive () 44 0 0 1 7)[4]? = some 7 :=
  (deriveChildKey_chain_index_unmodified okDerive () 44 0 0 1 7).2.2
    ⟨(), rfl⟩

/-! ## The walk and its failures (claims C2, C3 and C5) -/

/-- C2. `deriveChildKey` returns the key `k` without error exactly when the five
derivation steps, taken in the order purpose, coin type, account, chain, index,
each on the key produced by the step before (the first on the master key), all
succeed and the fifth yields `k`; in every other case it returns an error, and
so no key. -/
theorem deriveChildKey_ok_iff {K E : Type} (Derive : K → Nat → Except E K) (m : K)
    (p c a ch i : Nat) :
    (∀ k, deriveChildKey Derive m p c a ch i = .ok k ↔
      ∃ k1 k2 k3 k4,
        Derive m (u32 (p + HardenedKeyStart)) = .ok k1 ∧
        Derive k1 (u32 (c + HardenedKeyStart)) = .ok k2 ∧
        Derive k2 (u32 (a + HardenedKeyStart)) = .ok k3 ∧
        Derive k3 ch = .ok k4 ∧
        Derive k4 i = .ok k) ∧
      ((¬ ∃ k k1 k2 k3 k4,
          Derive m (u32 (p + HardenedKeyStart)) = .ok k1 ∧
          Derive k1 (u32 (c + HardenedKeyStart)) = .ok k2 ∧
          Derive k2 (u32 (a + HardenedKeyStart)) = .ok k3 ∧
          Derive k3 ch = .ok k4 ∧
          Derive k4 i = .ok k) →
        ∃ e, deriveChildKey Derive m p c a ch i = .error e) := by
  cases h1 : Derive m (u32 (p + HardenedKeyStart)) with
  | error e1 => simp [deriveChildKey, h1]
  | ok k1 =>
    cases h2 : Derive k1 (u32 (c + HardenedKeyStart)) with
    | error e2 => simp [deriveChildKey, h1, h2]
    | ok k2 =>
      cases h3 : Derive k2 (u32 (a + HardenedKeyStart)) with
      | error e3 => simp [deriveChildKey, h1, h2, h3]
      | ok k3 =>
        cases h4 : Derive k3 ch with
        | error e4 => simp [deriveChildKey, h1, h2, h3, h4]
        | ok k4 =>
          cases h5 : Derive k4 i with
          | error e5 => simp [deriveChildKey, h1, h2, h3, h4, h5]
          | ok k5 => simp [deriveChildKey, h1, h2, h3, h4, h5]

/-- C3, counterexample. On `flagDerive`, which rejects every hardened child
number requested from a public-only key, the public-only master key `false` and
the path 2^31, 2^31, 2^31, 0, 0 give a key and no error: each of the first three
child numbers wraps to 0, which is not hardened. -/
theorem deriveChildKey_public_master_succeeds :
    (∀ n, 2 ^ 31 ≤ n → flagDerive false n = .error ()) ∧
      deriveChildKey flagDerive false 2147483648 2147483648 2147483648 0 0 = .ok false := by
  refine ⟨?_, rfl⟩
  intro n hn
  simp only [flagDerive, hn, and_self, if_true]

/-- C3, amended. For a public-only master key and a path whose purpose is below
2^31, `deriveChildKey` returns an error (the wrapped error of the purpose step)
and no key, given that the derivation step rejects a hardened child number
(2^31 or more) requested from a public-only parent. -/
theorem deriveChildKey_public_master_error {K E : Type} (Derive : K → Nat → Except E K)
    (isPrivate : K → Bool) (m : K) (p c a ch i : Nat)
    (hrej : ∀ k n, isPrivate k = false → 2 ^ 31 ≤ n → n < 2 ^ 32 → ∃ e, Derive k n = .error e)
    (hpub : isPrivate m = false) (hp : p < 2 ^ 31) :
    ∃ e, Derive m (p + 2 ^ 31) = .error e ∧
      deriveChildKey Derive m p c a ch i = .error (.wrap "failed to derive purpose key: " e) := by
  obtain ⟨e, he⟩ := hrej m (p + 2 ^ 31) hpub (by omega) (by omega)
  have hu : u32 (p + HardenedKeyStart) = p + 2 ^ 31 := by
    rw [u32_add_hardened]
    omega
  refine ⟨e, he, ?_⟩
  unfold deriveChildKey
  rw [hu, he]

/-- C3, witness: the public-only key `false` of `flagDerive` and the path 44, 0, 0, 0, 0. -/
theorem deriveChildKey_public_master_error_witness :
    ∃ e, flagDerive false (44 + 2 ^ 31) = .error e ∧
      deriveChildKey flagDerive false 44 0 0 0 0 =
        .error (.wrap "failed to derive purpose key: " e) :=
  deriveChildKey_public_master_error flagDerive id false 44 0 0 0 0
    (by
      intro k n hk hn _
      have hk' : k = false := hk
      exact ⟨(), by simp only [flagDerive, hk', hn, and_self, if_true]⟩)
    rfl (by decide)

/-- C5, counterexample. On a derivation step that always fails, the paths with
purpose 44 and purpose 49 stop at the purpose segment after attempting the
different child numbers 2147483692 and 2147483697, and return the very same
error; hence no reading of the returned error gives back the child index that
was attempted. -/
theorem deriveChildKey_error_omits_child_index :
    (deriveChildKey failDerive () 44 0 0 0 0 =
        .error (.wrap "failed to derive purpose key: " ()) ∧
      deriveChildKey failDerive () 49 0 0 0 0 =
        .error (.wrap "failed to derive purpose key: " ()) ∧
      requests failDerive () 44 0 0 0 0 = [2147483692] ∧
      requests failDerive () 49 0 0 0 0 = [2147483697]) ∧
    ¬ ∃ identify : GoError Unit → Segment × Nat,
        ∀ p c a ch i s n e, p < 2 ^ 32 → c < 2 ^ 32 → a < 2 ^ 32 → ch < 2 ^ 32 → i < 2 ^ 32 →
          specWalk failDerive () (pathSteps p c a ch i) = .error (s, n, e) →
          ∃ w, deriveChildKey failDerive () p c a ch i = .error w ∧ identify w = (s, n) := by
  refine ⟨⟨rfl, rfl, by decide, by decide⟩, ?_⟩
  rintro ⟨identify, h⟩
  obtain ⟨w1, hw1, hi1⟩ := h 44 0 0 0 0 .purpose 2147483692 () (by decide) (by decide)
    (by decide) (by decide) (by decide) rfl
  obtain ⟨w2, hw2, hi2⟩ := h 49 0 0 0 0 .purpose 2147483697 () (by decide) (by decide)
    (by decide) (by decide) (by decide) rfl
  have e1 : w1 = .wrap "failed to derive purpose key: " () := by
    have h0 : deriveChildKey failDerive () 44 0 0 0 0 =
        .error (.wrap "failed to derive purpose key: " ()) := rfl
    rw [h0] at hw1
    exact (Except.error.inj hw1).symm
  have e2 : w2 = .wrap "failed to derive purpose key: " () := by
    have h0 : deriveChildKey failDerive () 49 0 0 0 0 =
        .error (.wrap "failed to derive purpose key: " ()) := rfl
    rw [h0] at hw2
    exact (Except.error.inj hw2).symm
  rw [e1] at hi1
  rw [e2, hi1] at hi2
  exact absurd hi2 (by decide)

/-- C5, amended. When a derivation step of `deriveChildKey` fails, the walk
stops at the first failing step (no later child number is requested), no key
is returned, and the returned error wraps that step's error with a text that
names the segment that failed; the text states the attempted child index when
the failing segment is the index segment, and is a fixed text for each of the
other four segments. -/
theorem deriveChildKey_first_failure {K E : Type} (Derive : K → Nat → Except E K)
    (errorString : E → String) (m : K) (p c a ch i : Nat) (s : Segment) (n : Nat) (e : E)
    (h : specWalk Derive m (pathSteps p c a ch i) = .error (s, n, e)) :
    deriveChildKey Derive m p c a ch i = .error (.wrap (failureText s n) e) ∧
      requests Derive m p c a ch i = ((pathSteps p c a ch i).map Prod.snd).take s.position ∧
      (requests Derive m p c a ch i).getLast? = some n ∧
      failedSegment ((GoError.wrap (failureText s n) e).Error errorString) = some s := by
  have t1 : ∀ x : String, failedSegment ("failed to derive purpose key: " ++ x) = some .purpose := by
    intro x
    simp only [failedSegment, startsWith, String.toList, String.data_append]
    rfl
  have t2 : ∀ x : String,
      failedSegment ("failed to derive coin type key: " ++ x) = some .coinType := by
    intro x
    simp only [failedSegment, startsWith, String.toList, String.data_append]
    rfl
  have t3 : ∀ x : String, failedSegment ("failed to derive account key: " ++ x) = some .account := by
    intro x
    simp only [failedSegment, startsWith, String.toList, String.data_append]
    rfl
  have t4 : ∀ x : String, failedSegment ("failed to derive chain key: " ++ x) = some .chain := by
    intro x
    simp only [failedSegment, startsWith, String.toList, String.data_append]
    rfl
  have t5 : ∀ (j : Nat) (x : String),
      failedSegment ("failed to derive index key " ++ toString j ++ ": " ++ x) = some .index := by
    intro j x
    simp only [failedSegment, startsWith, String.toList, String.data_append, List.append_assoc]
    rfl
  cases h1 : Derive m (u32 (p + HardenedKeyStart)) with
  | error e1 =>
    simp only [specWalk, pathSteps, h1, Except.error.injEq, Prod.mk.injEq] at h
    obtain ⟨rfl, rfl, rfl⟩ := h
    exact ⟨by simp only [deriveChildKey, h1, failureText],
      by simp [requests, requested, deriveChildKey, traced, h1, GoError.Unwrap, pathSteps,
        Segment.position],
      by simp [requests, requested, deriveChildKey, traced, h1, GoError.Unwrap],
      t1 _⟩
  | ok k1 =>
    cases h2 : Derive k1 (u32 (c + HardenedKeyStart)) with
    | error e2 =>
      simp only [specWalk, pathSteps, h1, h2, Except.error.injEq, Prod.mk.injEq] at h
      obtain ⟨rfl, rfl, rfl⟩ := h
      exact ⟨by simp only [deriveChildKey, h1, h2, failureText],
        by simp [requests, requested, deriveChildKey, traced, h1, h2, GoError.Unwrap, pathSteps,
          Segment.position],
        by simp [requests, requested, deriveChildKey, traced, h1, h2, GoError.Unwrap],
        t2 _⟩
    | ok k2 =>
      cases h3 : Derive k2 (u32 (a + HardenedKeyStart)) with
      | error e3 =>
        simp only [specWalk, pathSteps, h1, h2, h3, Except.error.injEq, Prod.mk.injEq] at h
        obtain ⟨rfl, rfl, rfl⟩ := h
        exact ⟨by simp only [deriveChildKey, h1, h2, h3, failureText],
          by simp [requests, requested, deriveChildKey, traced, h1, h2, h3, GoError.Unwrap,
            pathSteps, Segment.position],
          by simp [requests, requested, deriveChildKey, traced, h1, h2, h3, GoError.Unwrap],
          t3 _⟩
      | ok k3 =>
        cases h4 : Derive k3 ch with
        | error e4 =>
          simp only [specWalk, pathSteps, h1, h2, h3, h4, Except.error.injEq,
            Prod.mk.injEq] at h
          obtain ⟨rfl, rfl, rfl⟩ := h
          exact ⟨by simp only [deriveChildKey, h1, h2, h3, h4, failureText],
            by simp [requests, requested, deriveChildKey, traced, h1, h2, h3, h4,
              GoError.Unwrap, pathSteps, Segment.position],
            by simp [requests, requested, deriveChildKey, traced, h1, h2, h3, h4,
              GoError.Unwrap],
            t4 _⟩
        | ok k4 =>
          cases h5 : Derive k4 i with
          | error e5 =>
            simp only [specWalk, pathSteps, h1, h2, h3, h4, h5, Except.error.injEq,
              Prod.mk.injEq] at h
            obtain ⟨rfl, rfl, rfl⟩ := h
            exact ⟨by simp only [deriveChildKey, h1, h2, h3, h4, h5, failureText],
              by simp [requests, requested, deriveChildKey, traced, h1, h2, h3, h4, h5,
                GoError.Unwrap, pathSteps, Segment.position],
              by simp [requests, requested, deriveChildKey, traced, h1, h2, h3, h4, h5,
                GoError.Unwrap],
              t5 i _⟩
          | ok k5 =>
            simp [specWalk, pathSteps, h1, h2, h3, h4, h5] at h

/-- C5, witness: a walk that fails at once, at the purpose segment. -/
theorem deriveChildKey_first_failure_witness :
    deriveChildKey failDerive () 44 0 0 0 0 =
        .error (.wrap (failureText .purpose 2147483692) ()) ∧
      requests failDerive () 44 0 0 0 0 =
        ((pathSteps 44 0 0 0 0).map Prod.snd).take Segment.purpose.position ∧
      (requests failDerive () 44 0 0 0 0).getLast? = some 2147483692 ∧
      failedSegment ((GoError.wrap (failureText .purpose 2147483692) ()).Error
        (fun _ => "hardened")) = some .purpose :=
  deriveChildKey_first_failure failDerive (fun _ => "hardened") () 44 0 0 0 0 .purpose
    2147483692 () rfl

/-! ## The address encoders (claims C6 to C9) -/

section EncoderTheorems

variable {K PubKey Addr Net E : Type}

theorem witnessScript_build (notCanonical : String → E) (hash : List Nat)
    (hlen : hash.length = 20) :
    (((NewScriptBuilder : ScriptBuilder E).AddOp notCanonical OP_0).AddData notCanonical
      hash).Script = ([0x00, 0x14] ++ hash, none) := by
  have h1 : (NewScriptBuilder : ScriptBuilder E).AddOp notCanonical OP_0 = ⟨[0x00], none⟩ := by
    simp [NewScriptBuilder, ScriptBuilder.AddOp, MaxScriptSize, OP_0]
  rw [h1]
  simp [ScriptBuilder.AddData, ScriptBuilder.addData, ScriptBuilder.Script, canonicalDataSize,
    hlen, MaxScriptSize, MaxScriptElementSize, OP_PUSHDATA1, OP_DATA_1]

/-- C6. For a leaf key whose public key is extracted successfully, and any
network, `generateNestedSegWitAddress` builds without error the redeem script
0x00, 0x14 followed by the hash160 of the compressed public key (22 bytes, the
hash being 20 bytes long), and returns what the P2SH address constructor
returns for that serialized script and the network. -/
theorem generateNestedSegWitAddress_redeem_script (L : Btcd K PubKey Addr Net E) (key : K)
    (netParams : Net) (pubKey : PubKey) (hpk : L.ECPubKey key = .ok pubKey)
    (hlen : ∀ buf, (L.ripemd160 buf).length = 20) :
    (((NewScriptBuilder : ScriptBuilder E).AddOp L.ErrScriptNotCanonical OP_0).AddData
        L.ErrScriptNotCanonical (Hash160 L (L.SerializeCompressed pubKey))).Script =
        ([0x00, 0x14] ++ L.ripemd160 (L.sha256 (L.SerializeCompressed pubKey)), none) ∧
      ([0x00, 0x14] ++ L.ripemd160 (L.sha256 (L.SerializeCompressed pubKey))).length = 22 ∧
      generateNestedSegWitAddress L key netParams =
        libResult (L.NewAddressScriptHash
          ([0x00, 0x14] ++ L.ripemd160 (L.sha256 (L.SerializeCompressed pubKey))) netParams) := by
  have hb := witnessScript_build L.ErrScriptNotCanonical
    (Hash160 L (L.SerializeCompressed pubKey)) (hlen _)
  refine ⟨hb, by simp [hlen], ?_⟩
  unfold generateNestedSegWitAddress
  simp only [hpk, hb]
  rfl

/-- C6, witness: the toy library, whose hash160 is twenty zero bytes. -/
theorem generateNestedSegWitAddress_redeem_script_witness :
    generateNestedSegWitAddress toyLib (5, 0) () = .ok (0 :: 20 :: List.replicate 20 0) :=
  (generateNestedSegWitAddress_redeem_script toyLib (5, 0) () 5 rfl
    (by intro buf; simp [toyLib])).2.2

/-- C7. For a leaf key whose public key is extracted successfully, and any
network, `generateLegacyAddress` and `generateNativeSegWitAddress` hand the same
value, the hash160 (SHA-256 then RIPEMD-160, 20 bytes) of the compressed public
key, to their address constructors: the P2PKH constructor for legacy and the
witness-version-0 P2WPKH constructor for native segwit. -/
theorem generateLegacy_and_NativeSegWit_hash160 (L : Btcd K PubKey Addr Net E) (key : K)
    (netParams : Net) (pubKey : PubKey) (hpk : L.ECPubKey key = .ok pubKey)
    (hlen : ∀ buf, (L.ripemd160 buf).length = 20) :
    generateLegacyAddress L key netParams =
        libResult (L.NewAddressPubKeyHash
          (L.ripemd160 (L.sha256 (L.SerializeCompressed pubKey))) netParams) ∧
      generateNativeSegWitAddress L key netParams =
        libResult (L.NewAddressWitnessPubKeyHash
          (L.ripemd160 (L.sha256 (L.SerializeCompressed pubKey))) netParams) ∧
      (L.ripemd160 (L.sha256 (L.SerializeCompressed pubKey))).length = 20 := by
  refine ⟨?_, ?_, hlen _⟩
  · unfold generateLegacyAddress
    simp only [hpk]
    rfl
  · unfold generateNativeSegWitAddress
    simp only [hpk]
    rfl

/-- C7, witness: the toy library, whose hash160 is twenty zero bytes. -/
theorem generateLegacy_and_NativeSegWit_hash160_witness :
    generateLegacyAddress toyLib (5, 0) () = .ok (List.replicate 20 0) ∧
      generateNativeSegWitAddress toyLib (5, 0) () = .ok (List.replicate 20 0) ∧
      (toyLib.ripemd160 (toyLib.sha256 (toyLib.SerializeCompressed 5))).length = 20 :=
  generateLegacy_and_NativeSegWit_hash160 toyLib (5, 0) () 5 rfl (by intro buf; simp [toyLib])

theorem generateTaprootAddress_of_pubKey (L : Btcd K PubKey Addr Net E) (key : K)
    (netParams : Net) (pubKey : PubKey) (hpk : L.ECPubKey key = .ok pubKey) :
    generateTaprootAddress L key netParams =
      libResult (L.NewAddressTaproot
        (L.SerializePubKey
          (L.pointAdd (L.ParsePubKey (L.SerializePubKey pubKey))
            (L.scalarBaseMult (L.TaggedHash "TapTweak"
              (L.SerializePubKey (L.ParsePubKey (L.SerializePubKey pubKey)))))))
        netParams) := by
  unfold generateTaprootAddress
  simp only [hpk]
  rfl

theorem bip86Leaf_pubKey : secp256k1Lib.ECPubKey bip86LeafKey = .ok bip86LeafPubKey := by
  show Except.ok (curveMul bip86LeafKey basePoint) = Except.ok bip86LeafPubKey
  exact congrArg Except.ok (by decide!)

theorem bip86Leaf_tweak :
    taggedHash "TapTweak"
        (toBytesBE 32 0xcc8a4bc64d897bddc5fbc2f670f7a8ba0b386779106cf1223c6fc5d7cd6fc115) =
      toBytesBE 32 0x2ca01ed85cf6b6526f73d39a1111cd80333bfdc00ce98992859848a90a6f0258 := by
  decide!

theorem bip86Leaf_program :
    secp256k1Lib.SerializePubKey
        (secp256k1Lib.pointAdd
          (secp256k1Lib.ParsePubKey (secp256k1Lib.SerializePubKey bip86LeafPubKey))
          (secp256k1Lib.scalarBaseMult
            (secp256k1Lib.TaggedHash "TapTweak"
              (secp256k1Lib.SerializePubKey
                (secp256k1Lib.ParsePubKey
                  (secp256k1Lib.SerializePubKey bip86LeafPubKey)))))) =
      toBytesBE 32 0xa60869f0dbcf1dc659c9cecbaf8050135ea9e8cdc487053f1dc6880949dc684c := by
  decide!

theorem bip86Leaf_untweaked_sum :
    secp256k1Lib.SerializePubKey
        (secp256k1Lib.pointAdd bip86LeafPubKey
          (secp256k1Lib.scalarBaseMult
            (secp256k1Lib.TaggedHash "TapTweak"
              (secp256k1Lib.SerializePubKey bip86LeafPubKey)))) =
      toBytesBE 32 0x65c5779d00ef01ad771c8c0fd509c437ef93436e04948c90a5d51bc7f3509bb7 := by
  decide!

/-- C8, counterexample. On secp256k1, the leaf key m/86'/0'/0'/0/0 of the BIP-86
test vector has the public key P = 03cc8a4b...c115, whose y coordinate is odd.
`generateTaprootAddress` encodes the witness program a60869f0...684c, while the
x-only serialization of P + t*G with t = TaggedHash("TapTweak", P_x) is
65c5779d...9bb7. -/
theorem generateTaprootAddress_odd_y_leaf :
    secp256k1Lib.ECPubKey bip86LeafKey = .ok bip86LeafPubKey ∧
      bip86LeafPubKey.2 % 2 = 1 ∧
      generateTaprootAddress secp256k1Lib bip86LeafKey () =
        .ok (toBytesBE 32 0xa60869f0dbcf1dc659c9cecbaf8050135ea9e8cdc487053f1dc6880949dc684c) ∧
      secp256k1Lib.SerializePubKey
          (secp256k1Lib.pointAdd bip86LeafPubKey
            (secp256k1Lib.scalarBaseMult
              (secp256k1Lib.TaggedHash "TapTweak"
                (secp256k1Lib.SerializePubKey bip86LeafPubKey)))) =
        toBytesBE 32 0x65c5779d00ef01ad771c8c0fd509c437ef93436e04948c90a5d51bc7f3509bb7 ∧
      toBytesBE 32 0xa60869f0dbcf1dc659c9cecbaf8050135ea9e8cdc487053f1dc6880949dc684c ≠
        toBytesBE 32 0x65c5779d00ef01ad771c8c0fd509c437ef93436e04948c90a5d51bc7f3509bb7 := by
  refine ⟨bip86Leaf_pubKey, by decide, ?_, bip86Leaf_untweaked_sum, by decide!⟩
  rw [generateTaprootAddress_of_pubKey secp256k1Lib bip86LeafKey () bip86LeafPubKey
    bip86Leaf_pubKey]
  exact congrArg Except.ok bip86Leaf_program

/-- C8, amended. For a leaf key whose public key P is extracted successfully,
and any network, `generateTaprootAddress` hands to the witness-version-1
address constructor the x-only serialization of the output key Q = P' + t*G,
where P' is the internal key re-parsed from the x-only serialization P_x of P
(the point with the x coordinate of P and even y) and t is
TaggedHash("TapTweak", x-only serialization of P'), with no script root; t is
TaggedHash("TapTweak", P_x) as the re-parsing keeps the x-only serialization,
and Q = P + t*G when the re-parsing gives back P itself, that is when P has
even y. -/
theorem generateTaprootAddress_output_key (L : Btcd K PubKey Addr Net E) (key : K)
    (netParams : Net) (pubKey : PubKey) (hpk : L.ECPubKey key = .ok pubKey) :
    generateTaprootAddress L key netParams =
        libResult (L.NewAddressTaproot
          (L.SerializePubKey
            (L.pointAdd (L.ParsePubKey (L.SerializePubKey pubKey))
              (L.scalarBaseMult (L.TaggedHash "TapTweak"
                (L.SerializePubKey (L.ParsePubKey (L.SerializePubKey pubKey)))))))
          netParams) ∧
      (L.SerializePubKey (L.ParsePubKey (L.SerializePubKey pubKey)) = L.SerializePubKey pubKey →
        generateTaprootAddress L key netParams =
          libResult (L.NewAddressTaproot
            (L.SerializePubKey
              (L.pointAdd (L.ParsePubKey (L.SerializePubKey pubKey))
                (L.scalarBaseMult (L.TaggedHash "TapTweak" (L.SerializePubKey pubKey)))))
            netParams)) ∧
      (L.ParsePubKey (L.SerializePubKey pubKey) = pubKey →
        generateTaprootAddress L key netParams =
          libResult (L.NewAddressTaproot
            (L.SerializePubKey
              (L.pointAdd pubKey
                (L.scalarBaseMult (L.TaggedHash "TapTweak" (L.SerializePubKey pubKey)))))
            netParams)) := by
  have h := generateTaprootAddress_of_pubKey L key netParams pubKey hpk
  refine ⟨h, ?_, ?_⟩
  · intro hx
    rw [h, hx]
  · intro hp
    rw [h, hp]

/-- C8, witness: the leaf key m/86'/0'/0'/0/0 of the BIP-86 test vector on
secp256k1; re-parsing its public key keeps the x-only serialization, and the
program encoded is the output key a60869f0...684c of the test vector. -/
theorem generateTaprootAddress_output_key_witness :
    secp256k1Lib.SerializePubKey
        (secp256k1Lib.ParsePubKey (secp256k1Lib.SerializePubKey bip86LeafPubKey)) =
        secp256k1Lib.SerializePubKey bip86LeafPubKey ∧
      generateTaprootAddress secp256k1Lib bip86LeafKey () =
        .ok (toBytesBE 32 0xa60869f0dbcf1dc659c9cecbaf8050135ea9e8cdc487053f1dc6880949dc684c) := by
  refine ⟨by decide!, ?_⟩
  rw [(generateTaprootAddress_output_key secp256k1Lib bip86LeafKey () bip86LeafPubKey
    bip86Leaf_pubKey).1]
  exact congrArg Except.ok bip86Leaf_program

/-- C9. Each of the four encoders depends on the leaf key only through the result
of its public-key extraction: two leaf keys with the same extraction result
give, for the same network, the same address or the same error. -/
theorem encoders_depend_on_public_key_only (L : Btcd K PubKey Addr Net E) (key1 key2 : K)
    (netParams : Net) (h : L.ECPubKey key1 = L.ECPubKey key2) :
    generateLegacyAddress L key1 netParams = generateLegacyAddress L key2 netParams ∧
      generateNestedSegWitAddress L key1 netParams =
        generateNestedSegWitAddress L key2 netParams ∧
      generateNativeSegWitAddress L key1 netParams =
        generateNativeSegWitAddress L key2 netParams ∧
      generateTaprootAddress L key1 netParams = generateTaprootAddress L key2 netParams := by
  unfold generateLegacyAddress generateNestedSegWitAddress generateNativeSegWitAddress
    generateTaprootAddress
  rw [h]
  exact ⟨rfl, rfl, rfl, rfl⟩

/-- C9, witness: two toy keys of different depth with the same public key. -/
theorem encoders_depend_on_public_key_only_witness :
    generateLegacyAddress toyLib (5, 0) () = generateLegacyAddress toyLib (5, 3) () ∧
      generateNestedSegWitAddress toyLib (5, 0) () =
        generateNestedSegWitAddress toyLib (5, 3) () ∧
      generateNativeSegWitAddress toyLib (5, 0) () =
        generateNativeSegWitAddress toyLib (5, 3) () ∧
      generateTaprootAddress toyLib (5, 0) () = generateTaprootAddress toyLib (5, 3) () :=
  encoders_depend_on_public_key_only toyLib (5, 0) (5, 3) () rfl

end EncoderTheorems

/-! ## The batch printer (claim C10) -/

theorem batchLoop_eq_map (body : Nat → List String) (line : Nat → String)
    (hbody : ∀ i, body i = [line i]) (start : Nat) (hstart : start + 20 < 2 ^ 32) :
    batchLoop body start start = (List.range' start 20).map line := by
  have hb : u32 (start + AddressBatchSize) = start + 20 := by
    simp only [u32, AddressBatchSize]
    omega
  have key : ∀ k i, i + k = start + 20 →
      batchLoop body start i = (List.range' i k).map line := by
    intro k
    induction k with
    | zero =>
      intro i hi
      rw [batchLoop, hb, if_neg (by omega)]
      rfl
    | succ k ih =>
      intro i hi
      have hu : u32 (i + 1) = i + 1 := by
        simp only [u32]
        omega
      rw [batchLoop, hb, if_pos (by omega), hu, ih (i + 1) (by omega), hbody]
      rfl
  exact key 20 start rfl

theorem batchLoop_bound_wraps (body : Nat → List String) :
    batchLoop body 4294967280 4294967280 = [] := by
  rw [batchLoop, if_neg (by decide)]

section BatchTheorems

variable {K PubKey Addr Net E : Type}

/-- C10. For a batch start `s` with s + 20 < 2^32, `generateAddressBatch` prints,
after its heading, four sections in the order legacy, nested segwit, native
segwit, taproot; each section is its title followed by exactly one line for each
index s, s+1, ..., s+19 in ascending order, and the line of index i is the
address the section's encoder produces from `deriveChildKey(master, purpose, 0,
0, chain, i)` with purpose 44, 49, 84 and 86 respectively, or an error line when
the derivation or the encoding fails for i; a failure at one index leaves the
lines of the later indices in place. -/
theorem generateAddressBatch_sections (L : Btcd K PubKey Addr Net E) (masterKey : K)
    (netParams : Net) (s chain : Nat) (chainName : String) (hs : s + 20 < 2 ^ 32) :
    generateAddressBatch L masterKey netParams s chain chainName =
      ["
--- " ++ chainName ++ " (chain=" ++ toString chain ++ ") ---
"] ++
      batchSection L "
Legacy (BIP44 - P2PKH):
" "legacy" 44
        (generateLegacyAddress L) masterKey netParams s chain ++
      batchSection L "
Nested SegWit (BIP49 - P2SH-P2WPKH):
" "nested segwit" 49
        (generateNestedSegWitAddress L) masterKey netParams s chain ++
      batchSection L "
Native SegWit (BIP84 - P2WPKH):
" "native segwit" 84
        (generateNativeSegWitAddress L) masterKey netParams s chain ++
      batchSection L "
Taproot (BIP86 - P2TR):
" "taproot" 86
        (generateTaprootAddress L) masterKey netParams s chain := by
  unfold generateAddressBatch batchSection
  rw [batchLoop_eq_map _ (sectionLine L "legacy" 44 (generateLegacyAddress L) masterKey
      netParams chain) _ s hs,
    batchLoop_eq_map _ (sectionLine L "nested segwit" 49 (generateNestedSegWitAddress L)
      masterKey netParams chain) _ s hs,
    batchLoop_eq_map _ (sectionLine L "native segwit" 84 (generateNativeSegWitAddress L)
      masterKey netParams chain) _ s hs,
    batchLoop_eq_map _ (sectionLine L "taproot" 86 (generateTaprootAddress L) masterKey
      netParams chain) _ s hs]
  · simp
  all_goals
    intro i
    simp only [sectionLine, BIP44Purpose, BIP49Purpose, BIP84Purpose, BIP86Purpose,
      CoinTypeBitcoin, DefaultAccount]
    split
    · rfl
    · split <;> rfl

/-- C10, witness: the first batch (start 0) of the external chain on the toy library. -/
theorem generateAddressBatch_sections_witness :
    0 + 20 < 2 ^ 32 ∧
      generateAddressBatch toyLib (5, 0) () 0 0 "EXT" =
        ["\n--- " ++ "EXT" ++ " (chain=" ++ toString 0 ++ ") ---\n"] ++
        batchSection toyLib "\nLegacy (BIP44 - P2PKH):\n" "legacy" 44
          (generateLegacyAddress toyLib) (5, 0) () 0 0 ++
        batchSection toyLib "\nNested SegWit (BIP49 - P2SH-P2WPKH):\n" "nested segwit" 49
          (generateNestedSegWitAddress toyLib) (5, 0) () 0 0 ++
        batchSection toyLib "\nNative SegWit (BIP84 - P2WPKH):\n" "native segwit" 84
          (generateNativeSegWitAddress toyLib) (5, 0) () 0 0 ++
        batchSection toyLib "\nTaproot (BIP86 - P2TR):\n" "taproot" 86
          (generateTaprootAddress toyLib) (5, 0) () 0 0 :=
  ⟨by decide, generateAddressBatch_sections toyLib (5, 0) () 0 0 "EXT" (by decide)⟩

end BatchTheorems

end HDGen
